import Mathlib

/-!
# sam_se: season inference, override menu and preference store

A shallow embedding of `src/sam_se.c`.  The plugin keeps its data in file-level
`static` variables; here they are the fields of `State`, and every C function
becomes a function from the state before the call to the state after it.

Conventions of the embedding

* C `int` values are `Int`.  The program does no arithmetic besides comparisons
  and the negation of a day; a value `fscanf` stores and a negated day are
  reduced to the 32 bits of an `int` (`to_int`, `neg_int`).
* What the host returns to a call (`XPLMGetDatai`, `XPLMGetDatad`, whether
  `fopen` for writing succeeds) is an argument of the function that makes the
  call.
* The host keeps the check mark of every menu item; that table is the field
  `menu`, written by `XPLMCheckMenuItem` and read by `XPLMCheckMenuItemState`.
* The preference file is the field `pref_file`: `none` when there is no file,
  otherwise its characters.
* Indexing `season_item` outside `0..3` is undefined in C; functions that index
  the array return `Option State` and give `none` there.
-/

namespace SamSe

/-! ## Host constants -/

/-- Modelled from the spec: the SDK header `XPLMPlugin.h` is not among the
sources; this is the tag of the "airport loaded" notification (103 in the
X-Plane SDK). -/
def XPLM_MSG_AIRPORT_LOADED : Int := 103

/-- Modelled from the spec: the SDK header `XPLMPlugin.h` is not among the
sources; this is the tag of the "scenery loaded" notification (104 in the
X-Plane SDK). -/
def XPLM_MSG_SCENERY_LOADED : Int := 104

/-- Modelled from the spec: the SDK header `XPLMMenus.h` is not among the
sources; a menu item that has no check symbol at all (0 in the X-Plane SDK). -/
def xplm_Menu_NoCheck : Int := 0

/-- Modelled from the spec: the SDK header `XPLMMenus.h` is not among the
sources; a menu item whose check symbol is not lit (1 in the X-Plane SDK). -/
def xplm_Menu_Unchecked : Int := 1

/-- Modelled from the spec: the SDK header `XPLMMenus.h` is not among the
sources; a menu item whose check symbol is lit (2 in the X-Plane SDK). -/
def xplm_Menu_Checked : Int := 2

/-! ## The program state -/

/-- The file-level variables of `sam_se.c` (lines 38-49), the host's table of
menu check marks and the preference file. -/
structure State where
  /-- `static int auto_item` : menu index of the "Automatic" item. -/
  auto_item : Int
  /-- `season_item[0]` : menu index of "Winter". -/
  season_item0 : Int
  /-- `season_item[1]` : menu index of "Spring". -/
  season_item1 : Int
  /-- `season_item[2]` : menu index of "Summer". -/
  season_item2 : Int
  /-- `season_item[3]` : menu index of "Autumn". -/
  season_item3 : Int
  /-- `static int auto_season` : non-zero when the season follows the date. -/
  auto_season : Int
  /-- `static int airport_loaded`. -/
  airport_loaded : Int
  /-- `static int cur_day = 999` : the day last given to `set_season_auto`. -/
  cur_day : Int
  /-- `static int nh` : non-zero on the northern hemisphere. -/
  nh : Int
  /-- `static int cached_day = 999` : the day decoded by `load_pref`. -/
  cached_day : Int
  /-- `static int season` : 0-3. -/
  season : Int
  /-- Host side: the check mark of each item of the plugin's menu. -/
  menu : Int → Int
  /-- Host side: the content of the preference file, `none` if there is none. -/
  pref_file : Option (List Char)

/-- The variables as the C initialisers leave them when the plugin is loaded:
everything zero except the two day sentinels; no item has a check mark and the
preference file is the one found on disk. -/
def static_init (file : Option (List Char)) : State :=
  { auto_item := 0
    season_item0 := 0
    season_item1 := 0
    season_item2 := 0
    season_item3 := 0
    auto_season := 0
    airport_loaded := 0
    cur_day := 999
    nh := 0
    cached_day := 999
    season := 0
    menu := fun _ => xplm_Menu_NoCheck
    pref_file := file }

/-- The value of a `double` as far as this program looks at it: not-a-number, or
the number it stands for (both zeros are `num 0`). -/
inductive Double where
  | nan : Double
  | num (q : ℚ) : Double

/-- The C comparison `x >= 0.0` on a `double`: false for NaN. -/
def Double.ge_zero : Double → Bool
  | Double.nan => false
  | Double.num q => decide (0 ≤ q)

/-! ## Season publisher and inference engine -/

/-- Accessor for the "sam/season/*" dataref (`read_season_acc`, lines 104-112):
`ref` is the season bound at registration. -/
def read_season_acc (s : State) (ref : Int) : Int :=
  if ref = s.season then 1 else 0

/-- Set season according to date (`set_season_auto`, lines 115-149). -/
def set_season_auto (s : State) (day : Int) : State :=
  if s.auto_season = 0 then s
  else
    let season : Int :=
      if s.nh ≠ 0 then
        if day ≤ 80 then 0
        else if day ≤ 172 then 1
        else if day ≤ 264 then 2
        else if day ≤ 355 then 3
        else if day ≠ 0 then 0
        else s.season
      else
        if day ≤ 80 then 2
        else if day ≤ 172 then 3
        else if day ≤ 264 then 0
        else if day ≤ 355 then 1
        else if day ≠ 0 then 2
        else s.season
    { s with season := season, cur_day := day }

/-- Host notification handler (`XPluginReceiveMessage`, lines 269-281).
`host_day` is what `XPLMGetDatai(date_day_dr)` returns and `lat` what
`XPLMGetDatad(latitude_dr)` returns at the time of the call. -/
def XPluginReceiveMessage (s : State) (in_msg : Int) (host_day : Int) (lat : Double) : State :=
  if in_msg = XPLM_MSG_AIRPORT_LOADED ∨
      (s.airport_loaded ≠ 0 ∧ in_msg = XPLM_MSG_SCENERY_LOADED) then
    set_season_auto
      { s with airport_loaded := 1, nh := if lat.ge_zero then 1 else 0 } host_day
  else s

/-! ## Override menu -/

/-- Host call `XPLMCheckMenuItem(menu_id, item, chk)`: store the check mark of
one item. -/
def XPLMCheckMenuItem (s : State) (item : Int) (chk : Int) : State :=
  { s with menu := fun i => if i = item then chk else s.menu i }

/-- Host call `XPLMCheckMenuItemState(menu_id, item, &checked)`: the stored
check mark of one item. -/
def XPLMCheckMenuItemState (s : State) (item : Int) : Int :=
  s.menu item

/-- The array read `season_item[i]`; `none` outside the four elements. -/
def season_item (s : State) (i : Int) : Option Int :=
  if i = 0 then some s.season_item0
  else if i = 1 then some s.season_item1
  else if i = 2 then some s.season_item2
  else if i = 3 then some s.season_item3
  else none

/-- Emulate a kind of radio buttons (`set_menu`, lines 152-166).  The two
`for (int i = 0; i < 4; i++)` loops are folds over `[0, 1, 2, 3]`. -/
def set_menu (s : State) : Option State :=
  let s1 := XPLMCheckMenuItem s s.auto_item
    (if s.auto_season ≠ 0 then xplm_Menu_Checked else xplm_Menu_Unchecked)
  if s1.auto_season ≠ 0 then
    [0, 1, 2, 3].foldlM
      (fun (st : State) (i : Int) =>
        (season_item st i).map (fun it => XPLMCheckMenuItem st it xplm_Menu_Unchecked))
      s1
  else
    (season_item s1 s1.season).bind fun it =>
      [0, 1, 2, 3].foldlM
        (fun (st : State) (i : Int) =>
          if i ≠ st.season then
            (season_item st i).map (fun it => XPLMCheckMenuItem st it xplm_Menu_Unchecked)
          else some st)
        (XPLMCheckMenuItem s1 it xplm_Menu_Checked)

/-! ## Preference store -/

/-- The value an `int` holds when an integer is stored in it: its low 32 bits in
two's complement. -/
def to_int (x : Int) : Int :=
  (x + 2147483648) % 4294967296 - 2147483648

/-- What `strtol` returns for a number: the number itself, or the nearest bound
of the 64-bit `long` when it lies outside. -/
def clamp_long (x : Int) : Int :=
  if x < -9223372036854775808 then -9223372036854775808
  else if 9223372036854775807 < x then 9223372036854775807
  else x

/-- The C expression `-x` on an `int`, in two's complement: the least `int` is
its own negation. -/
def neg_int (x : Int) : Int :=
  to_int (- x)

/-- What `fprintf` prints for `%d`: a minus sign for a negative value, then the
decimal digits of the magnitude. -/
def fmt_d (n : Int) : List Char :=
  if n < 0 then '-' :: Nat.toDigits 10 n.natAbs else Nat.toDigits 10 n.toNat

/-- Save the preferences (`save_pref`, lines 67-77).  `fopen_ok` tells whether
`fopen(pref_path, "w")` succeeds; the file then holds exactly the printed
record. -/
def save_pref (s : State) (fopen_ok : Bool) : State :=
  if fopen_ok = false then s
  else
    /- encode southern hemisphere with negative days -/
    let d : Int := if s.nh ≠ 0 then s.cur_day else neg_int s.cur_day
    let record : List Char := fmt_d s.auto_season ++ ',' :: (fmt_d d ++ ',' :: fmt_d s.season)
    { s with pref_file := some record }

/-- C `isspace` in the "C" locale: space, tab, line feed, vertical tab, form
feed, carriage return. -/
def isspace (c : Char) : Bool :=
  c.toNat = 32 || (9 ≤ c.toNat && c.toNat ≤ 13)

/-- The value of a character as a digit, letters counting from ten. -/
def digit_value (c : Char) : Option Nat :=
  if 48 ≤ c.toNat ∧ c.toNat ≤ 57 then some (c.toNat - 48)
  else if 97 ≤ c.toNat ∧ c.toNat ≤ 102 then some (c.toNat - 87)
  else if 65 ≤ c.toNat ∧ c.toNat ≤ 70 then some (c.toNat - 55)
  else none

/-- Read the longest run of digits of the given base, continuing the value
`acc`; gives the value and the unread input. -/
def scan_digits (base : Nat) : List Char → Nat → Nat × List Char
  | [], acc => (acc, [])
  | c :: cs, acc =>
    match digit_value c with
    | some d => if d < base then scan_digits base cs (acc * base + d) else (acc, c :: cs)
    | none => (acc, c :: cs)

/-- Whether the input starts with a digit of the given base. -/
def starts_with_digit (base : Nat) : List Char → Bool
  | [] => false
  | c :: _ =>
    match digit_value c with
    | some d => decide (d < base)
    | none => false

/-- The unsigned part of a `%i` item as the C library reads it: after `0x` or
`0X` the hexadecimal digits that follow (none gives 0, the `x` being consumed),
after another `0` the octal digits that follow, otherwise decimal digits, of
which there must be one.  `none` is a matching failure. -/
def scan_magnitude : List Char → Option (Nat × List Char)
  | [] => none
  | c :: cs =>
    if c = '0' then
      match cs with
      | x :: ds =>
        if x = 'x' ∨ x = 'X' then some (scan_digits 16 ds 0)
        else some (scan_digits 8 cs 0)
      | [] => some (0, [])
    else if starts_with_digit 10 (c :: cs) then some (scan_digits 10 (c :: cs) 0)
    else none

/-- One `%i` conversion of `fscanf`: skip white space, take an optional sign and
a number whose base follows its first characters; the number goes through
`strtol` and is stored in an `int`.  `none` when nothing converts; otherwise
the value stored and the unread input. -/
def scan_i (inp : List Char) : Option (Int × List Char) :=
  match inp.dropWhile isspace with
  | [] => none
  | c :: cs =>
    if c = '-' then
      (scan_magnitude cs).map fun r => (to_int (clamp_long (- (r.1 : Int))), r.2)
    else if c = '+' then
      (scan_magnitude cs).map fun r => (to_int (clamp_long (r.1 : Int)), r.2)
    else (scan_magnitude (c :: cs)).map fun r => (to_int (clamp_long (r.1 : Int)), r.2)

/-- The fields a scan with the format `"%i,%i,%i"` converts, in order. -/
inductive Fields where
  | zero : Fields
  | one (a : Int) : Fields
  | two (a d : Int) : Fields
  | three (a d se : Int) : Fields

/-- The number of converted fields. -/
def Fields.count : Fields → Int
  | Fields.zero => 0
  | Fields.one _ => 1
  | Fields.two _ _ => 2
  | Fields.three _ _ _ => 3

/-- The format `"%i,%i,%i"` applied to the content of a file: the scan stops at
the first field that does not convert and at the first character after a field
that is not the comma of the format; what follows the third field is not
read. -/
def scan_fields (content : List Char) : Fields :=
  match scan_i content with
  | none => Fields.zero
  | some (a, r1) =>
    match r1 with
    | [] => Fields.one a
    | c1 :: r1 =>
      if c1 ≠ ',' then Fields.one a
      else
        match scan_i r1 with
        | none => Fields.one a
        | some (d, r2) =>
          match r2 with
          | [] => Fields.two a d
          | c2 :: r2 =>
            if c2 ≠ ',' then Fields.two a d
            else
              match scan_i r2 with
              | none => Fields.two a d
              | some (se, _) => Fields.three a d se

/-- The call `fscanf(f, "%i,%i,%i", &auto_season, &cached_day, &season)` on a
file with the given content: each converted field is stored in its variable,
and the result is the number of fields stored (EOF, -1, when the input ends
before the first field). -/
def fscanf_pref (s : State) (content : List Char) : Int × State :=
  match scan_fields content with
  | Fields.zero => (if content.dropWhile isspace = [] then -1 else 0, s)
  | Fields.one a => (1, { s with auto_season := a })
  | Fields.two a d => (2, { s with auto_season := a, cached_day := d })
  | Fields.three a d se => (3, { s with auto_season := a, cached_day := d, season := se })

/-- Load the preferences (`load_pref`, lines 80-101); `fopen(pref_path, "r")`
fails exactly when there is no file. -/
def load_pref (s : State) : State :=
  match s.pref_file with
  | none => s
  | some content =>
    let s1 := { s with nh := 1 }
    let r := fscanf_pref s1 content
    let s2 := if 3 = r.1 then r.2 else { r.2 with auto_season := 0 }
    if s2.cached_day < 0 then { s2 with nh := 0, cached_day := neg_int s2.cached_day }
    else s2

/-! ## Callbacks -/

/-- Menu handler (`menu_cb`, lines 169-189).  `item_ref` is the reference the
item was registered with (0-3 for the seasons, 4 for "Automatic"), `host_day`
what `XPLMGetDatai(date_day_dr)` returns, `fopen_ok` whether the preference
file can be opened for writing. -/
def menu_cb (s : State) (item_ref : Int) (host_day : Int) (fopen_ok : Bool) : Option State :=
  let entry := item_ref
  let changed : Option State :=
    if entry = 4 then
      some (set_season_auto
        { s with auto_season := if s.auto_season = 0 then 1 else 0 } host_day)
    else
      (season_item s entry).map fun it =>
        let checked := XPLMCheckMenuItemState s it
        if checked = 0 then /- unchecking means auto -/
          set_season_auto { s with auto_season := 1 } host_day
        else
          { s with auto_season := 0, season := entry }
  (changed.bind set_menu).map fun s2 => save_pref s2 fopen_ok

/-- The state `XPluginStart` (lines 192-247) has built when it calls
`load_pref`: the statics as initialised, and the five menu indices the host
returned from `XPLMAppendMenuItem`. -/
def before_load_pref (file : Option (List Char)) (ai i0 i1 i2 i3 : Int) : State :=
  { static_init file with
    auto_item := ai
    season_item0 := i0
    season_item1 := i1
    season_item2 := i2
    season_item3 := i3 }

/-- Plugin start (`XPluginStart`, lines 192-247): build the menu, load the
preferences, set the check marks. -/
def XPluginStart (file : Option (List Char)) (ai i0 i1 i2 i3 : Int) : Option State :=
  set_menu (load_pref (before_load_pref file ai i0 i1 i2 i3))

/-- Plugin disable (`XPluginDisable`, lines 257-260). -/
def XPluginDisable (s : State) (fopen_ok : Bool) : State :=
  save_pref s fopen_ok

/-! ## Notions of the specification -/

/-- The threshold table of the specification (section 4.1), in its words: on
the northern hemisphere day ≤ 80 is Winter, day ≤ 172 Spring, day ≤ 264 Summer,
day ≤ 355 Autumn and day > 355 Winter; on the southern hemisphere the same
thresholds with the season shifted by two. -/
def spec_threshold_season (north : Bool) (day : Int) : Int :=
  let n : Int :=
    if day ≤ 80 then 0
    else if day ≤ 172 then 1
    else if day ≤ 264 then 2
    else if day ≤ 355 then 3
    else 0
  if north then n else (n + 2) % 4

/-- The check marks of the state are those a call of `set_menu` wrote last: the
host's table is the one some call `set_menu s0` left, for the same five menu
items. -/
def marks_written_by_set_menu (s : State) : Prop :=
  ∃ s0 s1 : State, set_menu s0 = some s1 ∧ s.menu = s1.menu ∧
    s.auto_item = s0.auto_item ∧ s.season_item0 = s0.season_item0 ∧
    s.season_item1 = s0.season_item1 ∧ s.season_item2 = s0.season_item2 ∧
    s.season_item3 = s0.season_item3

/-! ## Example states -/

/-- A state of a running session: items as the host numbers them, automatic
mode, northern hemisphere, summer inferred from day 200. -/
def north_auto : State :=
  { before_load_pref none 0 2 3 4 5 with
    auto_season := 1
    airport_loaded := 1
    nh := 1
    cur_day := 200
    season := 2 }

/-- A state of a running session in manual mode: spring pinned, southern
hemisphere, last day 300. -/
def south_manual : State :=
  { before_load_pref none 0 2 3 4 5 with
    auto_season := 0
    airport_loaded := 1
    nh := 0
    cur_day := 300
    season := 1 }

/-- The state `north_auto` once `set_menu` has written the check marks. -/
def north_auto_started : State :=
  (set_menu north_auto).getD north_auto

/-- The state `south_manual` once `set_menu` has written the check marks: the
Spring item is the checked one. -/
def south_manual_started : State :=
  (set_menu south_manual).getD south_manual

/-- A manual state on the northern hemisphere: Autumn pinned, last day 100. -/
def north_manual_day100 : State :=
  { north_auto_started with
    auto_season := 0
    cur_day := 100
    season := 3 }

/-- A session in automatic mode receives "airport loaded" at latitude -33 while
the host clock gives day 0: southern hemisphere, last day 0, Summer. -/
def south_auto_day0 : State :=
  XPluginReceiveMessage north_auto_started XPLM_MSG_AIRPORT_LOADED 0 (Double.num (-33))

/-- The scenario of the specification: automatic mode, southern hemisphere,
last day 300, Winter. -/
def south_auto_day300 : State :=
  { north_auto_started with
    auto_season := 1
    nh := 0
    cur_day := 300
    season := 0 }

/-- The consistency property of the specification (section 3): in automatic
mode the season is the threshold-table season of the hemisphere and the last
day held in the state. -/
def auto_consistent (s : State) : Prop :=
  s.auto_season ≠ 0 → s.season = spec_threshold_season (decide (s.nh ≠ 0)) s.cur_day

/-- The states reached from `s0` by host notifications and menu clicks, with
whatever message, day, latitude, item and file access the host supplies. -/
inductive Reached (s0 : State) : State → Prop where
  | start : Reached s0 s0
  | message (s : State) (in_msg host_day : Int) (lat : Double) :
      Reached s0 s → Reached s0 (XPluginReceiveMessage s in_msg host_day lat)
  | menu (s s2 : State) (item_ref host_day : Int) (fopen_ok : Bool) :
      Reached s0 s → menu_cb s item_ref host_day fopen_ok = some s2 → Reached s0 s2

/-- The five items of the plugin's menu: "Automatic" and the four seasons. -/
def menu_items (s : State) : List Int :=
  [s.auto_item, s.season_item0, s.season_item1, s.season_item2, s.season_item3]

/-- The items of the plugin's menu whose mark is `xplm_Menu_Checked`. -/
def checked_items (s : State) : List Int :=
  (menu_items s).filter fun it => decide (s.menu it = xplm_Menu_Checked)

/-- The radio-button property of the specification (section 4.3): exactly one
of the five items is checked, the Automatic item alone in automatic mode and
otherwise the item of the current season alone. -/
def exactly_one_checked (s : State) : Prop :=
  (checked_items s).length = 1 ∧
  (s.auto_season ≠ 0 → checked_items s = [s.auto_item]) ∧
  (s.auto_season = 0 → ∃ it, season_item s s.season = some it ∧ checked_items s = [it])

/-- The season accessors, among the four registered ones, that answer 1. -/
def active_accessors (s : State) : List Int :=
  [0, 1, 2, 3].filter fun ref => decide (read_season_acc s ref = 1)

/-- A state in automatic mode on the southern hemisphere: Winter inferred from
day 200. -/
def south_auto : State :=
  { north_auto_started with
    nh := 0
    cur_day := 200
    season := 0 }

/-! ## Inference engine: theorems -/

/-- C1. Northern-hemisphere table: in automatic mode on the northern hemisphere,
for a day in 1..365, `set_season_auto` sets Winter up to day 80, Spring for
81..172, Summer for 173..264, Autumn for 265..355 and Winter after day 355, and
records the day in `cur_day`. -/
theorem set_season_auto_north_table (s : State) (day : Int)
    (hauto : s.auto_season ≠ 0) (hnh : s.nh ≠ 0) (hlo : 1 ≤ day) (hhi : day ≤ 365) :
    (day ≤ 80 → (set_season_auto s day).season = 0) ∧
    (81 ≤ day ∧ day ≤ 172 → (set_season_auto s day).season = 1) ∧
    (173 ≤ day ∧ day ≤ 264 → (set_season_auto s day).season = 2) ∧
    (265 ≤ day ∧ day ≤ 355 → (set_season_auto s day).season = 3) ∧
    (355 < day → (set_season_auto s day).season = 0) ∧
    (set_season_auto s day).cur_day = day := by
  have hs : ∀ t : Int, (set_season_auto s day).season = t ↔
      (if day ≤ 80 then (0 : Int) else if day ≤ 172 then 1 else if day ≤ 264 then 2
        else if day ≤ 355 then 3 else if day ≠ 0 then 0 else s.season) = t := by
    intro t
    simp [set_season_auto, hauto, hnh]
  refine ⟨?_, ?_, ?_, ?_, ?_, ?_⟩
  · intro h
    rw [hs]
    simp [h]
  · rintro ⟨h1, h2⟩
    rw [hs]
    have : ¬ day ≤ 80 := by omega
    simp [this, h2]
  · rintro ⟨h1, h2⟩
    rw [hs]
    have a : ¬ day ≤ 80 := by omega
    have b : ¬ day ≤ 172 := by omega
    simp [a, b, h2]
  · rintro ⟨h1, h2⟩
    rw [hs]
    have a : ¬ day ≤ 80 := by omega
    have b : ¬ day ≤ 172 := by omega
    have c : ¬ day ≤ 264 := by omega
    simp [a, b, c, h2]
  · intro h
    rw [hs]
    have a : ¬ day ≤ 80 := by omega
    have b : ¬ day ≤ 172 := by omega
    have c : ¬ day ≤ 264 := by omega
    have d : ¬ day ≤ 355 := by omega
    have e : day ≠ 0 := by omega
    simp [a, b, c, d, e]
  · simp [set_season_auto, hauto]

/-- C1, at the scenario of the specification: North, day 100, automatic mode
gives Spring (1), and day 100 is recorded. -/
theorem set_season_auto_north_table_witness :
    (north_auto.auto_season ≠ 0 ∧ north_auto.nh ≠ 0 ∧ (1 : Int) ≤ 100 ∧ (100 : Int) ≤ 365) ∧
    (set_season_auto north_auto 100).season = 1 ∧
    (set_season_auto north_auto 100).cur_day = 100 :=
  have h := set_season_auto_north_table north_auto 100
    (by decide) (by decide) (by decide) (by decide)
  ⟨⟨by decide, by decide, by decide, by decide⟩, h.2.1 ⟨by decide, by decide⟩, h.2.2.2.2.2⟩

/-- C2. Southern shift by two: in automatic mode, for every integer day, the
season inferred on the southern hemisphere (`nh = 0`) is the season inferred on
the northern hemisphere (`nh = n`, any non-zero value) plus two, modulo four. -/
theorem set_season_auto_south_shift (s : State) (day : Int) (n : Int)
    (hauto : s.auto_season ≠ 0) (hn : n ≠ 0) :
    (set_season_auto { s with nh := 0 } day).season =
      ((set_season_auto { s with nh := n } day).season + 2) % 4 := by
  simp only [set_season_auto, hauto, hn, if_false, ne_eq, not_true_eq_false,
    not_false_eq_true, if_true]
  by_cases h1 : day ≤ 80
  · simp [h1]
  · by_cases h2 : day ≤ 172
    · simp [h1, h2]
    · by_cases h3 : day ≤ 264
      · simp [h1, h2, h3]
      · by_cases h4 : day ≤ 355
        · simp [h1, h2, h3, h4]
        · have h5 : day ≠ 0 := by omega
          simp [h1, h2, h3, h4, h5]

/-- C2, at day 100: Autumn (3) in the South, Spring (1) in the North. -/
theorem set_season_auto_south_shift_witness :
    (north_auto.auto_season ≠ 0 ∧ (1 : Int) ≠ 0) ∧
    (set_season_auto { north_auto with nh := 0 } 100).season = 3 ∧
    (set_season_auto { north_auto with nh := 1 } 100).season = 1 ∧
    (set_season_auto { north_auto with nh := 0 } 100).season =
      ((set_season_auto { north_auto with nh := 1 } 100).season + 2) % 4 :=
  ⟨⟨by decide, by decide⟩, by decide, by decide,
    set_season_auto_south_shift north_auto 100 1 (by decide) (by decide)⟩

/-- C3, as stated, fails: in automatic mode on the northern hemisphere with
Summer inferred from day 200, `set_season_auto 0` changes the season to Winter
and the last day to 0. -/
theorem set_season_auto_zero_not_noop :
    north_auto.auto_season ≠ 0 ∧
    north_auto.season = 2 ∧ (set_season_auto north_auto 0).season = 0 ∧
    north_auto.cur_day = 200 ∧ (set_season_auto north_auto 0).cur_day = 0 := by
  decide

/-- C3, amended. In automatic mode `set_season_auto 0` records day 0 as the last
day, as for any other day, and touches nothing but `season` and `cur_day`. -/
theorem set_season_auto_zero_records_day (s : State) (hauto : s.auto_season ≠ 0) :
    (set_season_auto s 0).cur_day = 0 ∧
    (set_season_auto s 0).auto_season = s.auto_season ∧
    (set_season_auto s 0).nh = s.nh ∧
    (set_season_auto s 0).airport_loaded = s.airport_loaded ∧
    (set_season_auto s 0).cached_day = s.cached_day ∧
    (set_season_auto s 0).menu = s.menu ∧
    (set_season_auto s 0).pref_file = s.pref_file := by
  simp [set_season_auto, hauto]

/-- C3, amended, at a state in automatic mode whose last day was 200. -/
theorem set_season_auto_zero_records_day_witness :
    north_auto.auto_season ≠ 0 ∧ north_auto.cur_day = 200 ∧
    (set_season_auto north_auto 0).cur_day = 0 :=
  ⟨by decide, by decide,
    (set_season_auto_zero_records_day north_auto (by decide)).1⟩

/-- C4. Manual mode freezes the season: when `auto_season` is 0, neither
`set_season_auto` with any day nor `XPluginReceiveMessage` with any message, host
day and latitude changes `season` or `cur_day`. -/
theorem manual_mode_freezes_season (s : State) (day : Int) (in_msg : Int)
    (host_day : Int) (lat : Double) (hman : s.auto_season = 0) :
    (set_season_auto s day).season = s.season ∧
    (set_season_auto s day).cur_day = s.cur_day ∧
    (XPluginReceiveMessage s in_msg host_day lat).season = s.season ∧
    (XPluginReceiveMessage s in_msg host_day lat).cur_day = s.cur_day := by
  refine ⟨?_, ?_, ?_, ?_⟩
  · simp [set_season_auto, hman]
  · simp [set_season_auto, hman]
  · unfold XPluginReceiveMessage
    split
    · simp [set_season_auto, hman]
    · rfl
  · unfold XPluginReceiveMessage
    split
    · simp [set_season_auto, hman]
    · rfl

/-- C4, at a manual state with Spring pinned: an airport-loaded notification
with day 10 and latitude 48 leaves Spring and the last day 300 in place. -/
theorem manual_mode_freezes_season_witness :
    south_manual.auto_season = 0 ∧
    (XPluginReceiveMessage south_manual XPLM_MSG_AIRPORT_LOADED 10 (Double.num 48)).season = 1 ∧
    (XPluginReceiveMessage south_manual XPLM_MSG_AIRPORT_LOADED 10 (Double.num 48)).cur_day
      = 300 :=
  have h := manual_mode_freezes_season south_manual 10 XPLM_MSG_AIRPORT_LOADED 10
    (Double.num 48) (by decide)
  ⟨by decide, h.2.2.1, h.2.2.2⟩

/-! ## Override menu: theorems -/

/-- When `set_menu` returns, the state is in automatic mode or its season is
one of the four array indices. -/
theorem set_menu_some_range (s s1 : State) (h : set_menu s = some s1) :
    s.auto_season ≠ 0 ∨ (0 ≤ s.season ∧ s.season ≤ 3) := by
  by_cases ha : s.auto_season = 0
  · right
    by_contra hr
    have h0 : ¬ s.season = 0 := by omega
    have h1 : ¬ s.season = 1 := by omega
    have h2 : ¬ s.season = 2 := by omega
    have h3 : ¬ s.season = 3 := by omega
    simp [set_menu, XPLMCheckMenuItem, season_item, ha, h0, h1, h2, h3] at h
  · exact Or.inl ha

/-- In automatic mode, or with a season in 0..3, `set_menu` returns; it changes
nothing but the check marks, and each of the four season items is left with a
mark other than `xplm_Menu_NoCheck`. -/
theorem set_menu_result (s : State)
    (hr : s.auto_season ≠ 0 ∨ (0 ≤ s.season ∧ s.season ≤ 3)) :
    ∃ s1, set_menu s = some s1 ∧
      (s1.auto_item = s.auto_item ∧ s1.season_item0 = s.season_item0 ∧
        s1.season_item1 = s.season_item1 ∧ s1.season_item2 = s.season_item2 ∧
        s1.season_item3 = s.season_item3) ∧
      (s1.auto_season = s.auto_season ∧ s1.airport_loaded = s.airport_loaded ∧
        s1.cur_day = s.cur_day ∧ s1.nh = s.nh ∧ s1.cached_day = s.cached_day ∧
        s1.season = s.season ∧ s1.pref_file = s.pref_file) ∧
      (s1.menu s.season_item0 ≠ 0 ∧ s1.menu s.season_item1 ≠ 0 ∧
        s1.menu s.season_item2 ≠ 0 ∧ s1.menu s.season_item3 ≠ 0) := by
  by_cases ha : s.auto_season = 0
  · have hc : s.season = 0 ∨ s.season = 1 ∨ s.season = 2 ∨ s.season = 3 := by
      rcases hr with hr | hr
      · exact absurd ha hr
      · omega
    rcases hc with hc | hc | hc | hc <;>
      simp [set_menu, XPLMCheckMenuItem, season_item, List.foldlM, ha, hc,
        xplm_Menu_Unchecked, xplm_Menu_Checked] <;>
      (try split_ifs) <;> simp
  · simp [set_menu, XPLMCheckMenuItem, season_item, List.foldlM, ha, xplm_Menu_Unchecked]

/-- The mark `menu_cb` reads for a season item is never `xplm_Menu_NoCheck` when
the marks are those written by `set_menu`. -/
theorem marks_written_nonzero (s : State) (h : marks_written_by_set_menu s) :
    s.menu s.season_item0 ≠ 0 ∧ s.menu s.season_item1 ≠ 0 ∧
    s.menu s.season_item2 ≠ 0 ∧ s.menu s.season_item3 ≠ 0 := by
  obtain ⟨s0, s1, hset, hm, _, h0, h1, h2, h3⟩ := h
  obtain ⟨s2, hset2, _, _, hmarks⟩ := set_menu_result s0 (set_menu_some_range s0 s1 hset)
  have : s2 = s1 := by
    rw [hset] at hset2
    exact (Option.some.inj hset2).symm
  subst this
  rw [hm, h0, h1, h2, h3]
  exact hmarks

/-- `save_pref` writes the preference file and nothing else. -/
theorem save_pref_vars (s : State) (ok : Bool) :
    (save_pref s ok).auto_season = s.auto_season ∧ (save_pref s ok).season = s.season ∧
    (save_pref s ok).cur_day = s.cur_day ∧ (save_pref s ok).nh = s.nh ∧
    (save_pref s ok).cached_day = s.cached_day ∧
    (save_pref s ok).airport_loaded = s.airport_loaded ∧
    (save_pref s ok).menu = s.menu := by
  cases ok <;> simp [save_pref]

/-- C5. Selecting a specific season pins it: from every state whose check marks
are those last written by `set_menu`, in automatic or manual mode, `menu_cb`
with a season item `k` of 0..3 returns a state with `auto_season = 0` and
`season = k`; there `read_season_acc k` is 1 and `read_season_acc j` is 0 for
every other `j`. -/
theorem menu_cb_season_pins (s : State) (k : Int) (host_day : Int) (fopen_ok : Bool)
    (hmarks : marks_written_by_set_menu s) (hk : 0 ≤ k ∧ k ≤ 3) :
    ∃ s2, menu_cb s k host_day fopen_ok = some s2 ∧
      s2.auto_season = 0 ∧ s2.season = k ∧
      read_season_acc s2 k = 1 ∧ ∀ j : Int, j ≠ k → read_season_acc s2 j = 0 := by
  obtain ⟨m0, m1, m2, m3⟩ := marks_written_nonzero s hmarks
  obtain ⟨s1, hs1, _, hv, _⟩ :=
    set_menu_result { s with auto_season := 0, season := k } (Or.inr hk)
  have hcb : menu_cb s k host_day fopen_ok = some (save_pref s1 fopen_ok) := by
    have hc : k = 0 ∨ k = 1 ∨ k = 2 ∨ k = 3 := by omega
    rcases hc with hc | hc | hc | hc <;> subst hc <;>
      simp [menu_cb, season_item, XPLMCheckMenuItemState, m0, m1, m2, m3, hs1]
  have hsv := save_pref_vars s1 fopen_ok
  have hauto : (save_pref s1 fopen_ok).auto_season = 0 := by
    rw [hsv.1, hv.1]
  have hseason : (save_pref s1 fopen_ok).season = k := by
    rw [hsv.2.1, hv.2.2.2.2.2.1]
  refine ⟨save_pref s1 fopen_ok, hcb, hauto, hseason, ?_, ?_⟩
  · simp [read_season_acc, hseason]
  · intro j hj
    simp [read_season_acc, hseason, hj]

/-- The marks of `south_manual_started` are those `set_menu` wrote. -/
theorem south_manual_started_marks : marks_written_by_set_menu south_manual_started :=
  ⟨south_manual, south_manual_started, rfl, rfl, rfl, rfl, rfl, rfl, rfl⟩

/-- C5, at a manual state with Spring pinned and its item checked: selecting
Summer (item 2) ends in manual mode with Summer, and only the Summer accessor
answers 1. -/
theorem menu_cb_season_pins_witness :
    (marks_written_by_set_menu south_manual_started ∧ (0 : Int) ≤ 2 ∧ (2 : Int) ≤ 3) ∧
    ∃ s2, menu_cb south_manual_started 2 10 true = some s2 ∧
      s2.auto_season = 0 ∧ s2.season = 2 ∧
      read_season_acc s2 2 = 1 ∧ ∀ j : Int, j ≠ 2 → read_season_acc s2 j = 0 :=
  ⟨⟨south_manual_started_marks, by decide, by decide⟩,
    menu_cb_season_pins south_manual_started 2 10 true south_manual_started_marks
      ⟨by decide, by decide⟩⟩

/-- C6, as stated, fails: from a state in automatic mode, `menu_cb` with the
Automatic item (entry 4) ends with `auto_season = 0`. -/
theorem menu_cb_auto_item_turns_auto_off :
    north_auto_started.auto_season = 1 ∧
    (menu_cb north_auto_started 4 200 true).map (fun s => s.auto_season) = some 0 := by
  decide

/-- C6, amended. The Automatic item toggles automatic mode: from manual mode
`menu_cb` with entry 4 returns a state with `auto_season = 1`; from automatic
mode, with the season in 0..3, it returns a state with `auto_season = 0` in
which the season and the last day are those of the state before the click. -/
theorem menu_cb_auto_item_toggles (s : State) (host_day : Int) (fopen_ok : Bool) :
    (s.auto_season = 0 →
      ∃ s2, menu_cb s 4 host_day fopen_ok = some s2 ∧ s2.auto_season = 1) ∧
    (s.auto_season ≠ 0 → 0 ≤ s.season ∧ s.season ≤ 3 →
      ∃ s2, menu_cb s 4 host_day fopen_ok = some s2 ∧ s2.auto_season = 0 ∧
        s2.season = s.season ∧ s2.cur_day = s.cur_day ∧ s2.nh = s.nh) := by
  constructor
  · intro ha
    obtain ⟨s1, hs1, _, hv, _⟩ :=
      set_menu_result (set_season_auto { s with auto_season := 1 } host_day)
        (Or.inl (by simp [set_season_auto]))
    refine ⟨save_pref s1 fopen_ok, ?_, ?_⟩
    · simp [menu_cb, ha, hs1]
    · rw [(save_pref_vars s1 fopen_ok).1, hv.1]
      simp [set_season_auto]
  · intro ha hr
    obtain ⟨s1, hs1, _, hv, _⟩ :=
      set_menu_result (set_season_auto { s with auto_season := 0 } host_day)
        (Or.inr (by simpa [set_season_auto] using hr))
    have hsv := save_pref_vars s1 fopen_ok
    refine ⟨save_pref s1 fopen_ok, ?_, ?_, ?_, ?_, ?_⟩
    · simp [menu_cb, ha, hs1]
    · rw [hsv.1, hv.1]
      simp [set_season_auto]
    · rw [hsv.2.1, hv.2.2.2.2.2.1]
      simp [set_season_auto]
    · rw [hsv.2.2.1, hv.2.2.1]
      simp [set_season_auto]
    · rw [hsv.2.2.2.1, hv.2.2.2.1]
      simp [set_season_auto]

/-- C6, amended, at a manual and at an automatic state: from the automatic
state with Summer inferred from day 200 the click ends in manual mode with
Summer and last day 200, whatever day (10) the host clock gives. -/
theorem menu_cb_auto_item_toggles_witness :
    (south_manual_started.auto_season = 0 ∧
      ∃ s2, menu_cb south_manual_started 4 10 true = some s2 ∧ s2.auto_season = 1) ∧
    ((north_auto_started.auto_season ≠ 0 ∧
        0 ≤ north_auto_started.season ∧ north_auto_started.season ≤ 3) ∧
      north_auto_started.season = 2 ∧ north_auto_started.cur_day = 200 ∧
      ∃ s2, menu_cb north_auto_started 4 10 true = some s2 ∧ s2.auto_season = 0 ∧
        s2.season = north_auto_started.season ∧ s2.cur_day = north_auto_started.cur_day ∧
        s2.nh = north_auto_started.nh) :=
  ⟨⟨by decide, (menu_cb_auto_item_toggles south_manual_started 10 true).1 (by decide)⟩,
    ⟨by decide, by decide, by decide⟩, by decide, by decide,
    (menu_cb_auto_item_toggles north_auto_started 10 true).2 (by decide)
      ⟨by decide, by decide⟩⟩

/-- C7, as stated, fails: in manual mode on the northern hemisphere with last
day 100 (Spring in the table), selecting Automatic while the host clock gives
day 200 ends with Summer (2) and last day 200. -/
theorem menu_cb_auto_uses_host_day :
    north_manual_day100.auto_season = 0 ∧ north_manual_day100.nh = 1 ∧
    north_manual_day100.cur_day = 100 ∧ spec_threshold_season true 100 = 1 ∧
    (menu_cb north_manual_day100 4 200 true).map (fun s => s.season) = some 2 ∧
    (menu_cb north_manual_day100 4 200 true).map (fun s => s.cur_day) = some 200 := by
  decide

/-- The season `set_season_auto` sets for a day other than 0 is the one of the
threshold table. -/
theorem set_season_auto_table (s : State) (day : Int)
    (hauto : s.auto_season ≠ 0) (hday : day ≠ 0) :
    (set_season_auto s day).season = spec_threshold_season (decide (s.nh ≠ 0)) day := by
  by_cases hn : s.nh = 0
  · simp only [set_season_auto, spec_threshold_season, hauto, hn, if_false, ne_eq,
      not_true_eq_false, decide_False, Bool.false_eq_true]
    by_cases h1 : day ≤ 80
    · simp [h1]
    · by_cases h2 : day ≤ 172
      · simp [h1, h2]
      · by_cases h3 : day ≤ 264
        · simp [h1, h2, h3]
        · by_cases h4 : day ≤ 355
          · simp [h1, h2, h3, h4]
          · simp [h1, h2, h3, h4, hday]
  · simp only [set_season_auto, spec_threshold_season, hauto, hn, if_false, ne_eq,
      not_false_eq_true, decide_True, if_true]
    by_cases h1 : day ≤ 80
    · simp [h1]
    · by_cases h2 : day ≤ 172
      · simp [h1, h2]
      · by_cases h3 : day ≤ 264
        · simp [h1, h2, h3]
        · by_cases h4 : day ≤ 355
          · simp [h1, h2, h3, h4]
          · simp [h1, h2, h3, h4, hday]

/-- C7, amended. Switching Automatic on infers from the hemisphere held in the
state and the day the host clock returns at the click: from manual mode, for
every host day other than 0, `menu_cb` with entry 4 returns a state whose
season is the threshold-table season of (`nh`, host day) and whose `cur_day` is
the host day, whatever the pinned season and the last day were. -/
theorem menu_cb_auto_infers_from_host_day (s : State) (host_day : Int) (fopen_ok : Bool)
    (hman : s.auto_season = 0) (hday : host_day ≠ 0) :
    ∃ s2, menu_cb s 4 host_day fopen_ok = some s2 ∧
      s2.season = spec_threshold_season (decide (s.nh ≠ 0)) host_day ∧
      s2.cur_day = host_day ∧ s2.nh = s.nh := by
  obtain ⟨s1, hs1, _, hv, _⟩ :=
    set_menu_result (set_season_auto { s with auto_season := 1 } host_day)
      (Or.inl (by simp [set_season_auto]))
  have htab := set_season_auto_table { s with auto_season := 1 } host_day (by simp) hday
  refine ⟨save_pref s1 fopen_ok, ?_, ?_, ?_, ?_⟩
  · simp [menu_cb, hman, hs1]
  · rw [(save_pref_vars s1 fopen_ok).2.1, hv.2.2.2.2.2.1, htab]
  · rw [(save_pref_vars s1 fopen_ok).2.2.1, hv.2.2.1]
    simp [set_season_auto]
  · rw [(save_pref_vars s1 fopen_ok).2.2.2.1, hv.2.2.2.1]
    simp [set_season_auto]

/-- C7, amended, at the manual state with last day 100 and host day 200: the
season becomes Summer, the table entry of day 200, not Spring, that of day
100. -/
theorem menu_cb_auto_infers_from_host_day_witness :
    (north_manual_day100.auto_season = 0 ∧ (200 : Int) ≠ 0) ∧
    spec_threshold_season (decide (north_manual_day100.nh ≠ 0)) 200 = 2 ∧
    ∃ s2, menu_cb north_manual_day100 4 200 true = some s2 ∧
      s2.season = spec_threshold_season (decide (north_manual_day100.nh ≠ 0)) 200 ∧
      s2.cur_day = 200 ∧ s2.nh = north_manual_day100.nh :=
  ⟨⟨by decide, by decide⟩, by decide,
    menu_cb_auto_infers_from_host_day north_manual_day100 200 true (by decide) (by decide)⟩

/-! ## Preference store: theorems -/

/-- The comparison `-33.0 >= 0.0` is false. -/
theorem ge_zero_south : (Double.num (-33)).ge_zero = false := by
  simp [Double.ge_zero]

/-- The fields of `south_auto_day0`. -/
theorem south_auto_day0_vars :
    south_auto_day0.auto_season = 1 ∧ south_auto_day0.nh = 0 ∧
    south_auto_day0.cur_day = 0 ∧ south_auto_day0.season = 2 := by
  simp [south_auto_day0, XPluginReceiveMessage, XPLM_MSG_AIRPORT_LOADED, ge_zero_south,
    set_season_auto]
  decide

/-- C8, at the failing input: the state with automatic mode, southern
hemisphere, last day 0 and Summer is saved as `1,0,2`, and `load_pref` on that
record gives the northern hemisphere (`nh = 1`); the day is decoded into
`cached_day` and `cur_day` keeps its initial 999. -/
theorem save_load_south_day_zero :
    (south_auto_day0.auto_season = 1 ∧ south_auto_day0.nh = 0 ∧
      south_auto_day0.cur_day = 0 ∧ south_auto_day0.season = 2) ∧
    (save_pref south_auto_day0 true).pref_file = some "1,0,2".toList ∧
    (load_pref (before_load_pref (some "1,0,2".toList) 0 2 3 4 5)).auto_season = 1 ∧
    (load_pref (before_load_pref (some "1,0,2".toList) 0 2 3 4 5)).nh = 1 ∧
    (load_pref (before_load_pref (some "1,0,2".toList) 0 2 3 4 5)).cached_day = 0 ∧
    (load_pref (before_load_pref (some "1,0,2".toList) 0 2 3 4 5)).cur_day = 999 ∧
    (load_pref (before_load_pref (some "1,0,2".toList) 0 2 3 4 5)).season = 2 := by
  refine ⟨south_auto_day0_vars, ?_, by decide, by decide, by decide, by decide, by decide⟩
  obtain ⟨h1, h2, h3, h4⟩ := south_auto_day0_vars
  simp only [save_pref, h1, h2, h3, h4]
  decide

/-- The scenario of the specification: automatic mode, South, last day 300 and
Winter are saved as `1,-300,0`; `load_pref` on that record gives automatic mode,
the southern hemisphere, Winter, and the day 300 in `cached_day`. -/
theorem save_load_south_day_300 :
    (save_pref south_auto_day300 true).pref_file = some "1,-300,0".toList ∧
    (load_pref (before_load_pref (some "1,-300,0".toList) 0 2 3 4 5)).auto_season = 1 ∧
    (load_pref (before_load_pref (some "1,-300,0".toList) 0 2 3 4 5)).nh = 0 ∧
    (load_pref (before_load_pref (some "1,-300,0".toList) 0 2 3 4 5)).cached_day = 300 ∧
    (load_pref (before_load_pref (some "1,-300,0".toList) 0 2 3 4 5)).season = 0 := by
  decide

/-- A value stored in an `int` lies in the range of `int`. -/
theorem to_int_range (x : Int) : -2147483648 ≤ to_int x ∧ to_int x < 2147483648 := by
  unfold to_int
  omega

/-- Negating an `int` other than the least one gives its negative; the least
`int` is left as it is. -/
theorem neg_int_eq (d : Int) (hlo : -2147483648 ≤ d) (hhi : d < 2147483648) :
    (d ≠ -2147483648 → neg_int d = - d) ∧ (d = -2147483648 → neg_int d = d) := by
  unfold neg_int to_int
  constructor <;> intro h <;> omega

/-- The value a `%i` conversion stores lies in the range of `int`. -/
theorem scan_i_range (inp rest : List Char) (v : Int) (h : scan_i inp = some (v, rest)) :
    -2147483648 ≤ v ∧ v < 2147483648 := by
  unfold scan_i at h
  split at h
  · simp at h
  · split_ifs at h <;> simp only [Option.map_eq_some', Prod.mk.injEq] at h <;>
      obtain ⟨r, _, hv, _⟩ := h <;> rw [← hv] <;> exact to_int_range _

/-- The second field of a scan lies in the range of `int`. -/
theorem scan_fields_second_range (c : List Char) :
    (∀ a d : Int, scan_fields c = Fields.two a d → -2147483648 ≤ d ∧ d < 2147483648) ∧
    (∀ a d se : Int, scan_fields c = Fields.three a d se →
      -2147483648 ≤ d ∧ d < 2147483648) := by
  cases h1 : scan_i c with
  | none => simp [scan_fields, h1]
  | some p1 =>
    obtain ⟨a1, r1⟩ := p1
    cases r1 with
    | nil => simp [scan_fields, h1]
    | cons c1 r1 =>
      by_cases hc1 : c1 = ','
      · cases h2 : scan_i r1 with
        | none => simp [scan_fields, h1, hc1, h2]
        | some p2 =>
          obtain ⟨d2, r2⟩ := p2
          have hr := scan_i_range r1 r2 d2 h2
          cases r2 with
          | nil =>
            simp only [scan_fields, h1, hc1, h2]
            constructor
            · intro a d h
              simp at h
              rw [← h.2]
              exact hr
            · intro a d se h
              simp at h
          | cons c2 r2 =>
            by_cases hc2 : c2 = ','
            · cases h3 : scan_i r2 with
              | none =>
                simp only [scan_fields, h1, hc1, h2, hc2, h3]
                constructor
                · intro a d h
                  simp at h
                  rw [← h.2]
                  exact hr
                · intro a d se h
                  simp at h
              | some p3 =>
                obtain ⟨e3, r3⟩ := p3
                simp only [scan_fields, h1, hc1, h2, hc2, h3]
                constructor
                · intro a d h
                  simp at h
                · intro a d se h
                  simp at h
                  rw [← h.2.1]
                  exact hr
            · simp only [scan_fields, h1, hc1, h2]
              constructor
              · intro a d h
                simp [hc2] at h
                rw [← h.2]
                exact hr
              · intro a d se h
                simp [hc2] at h
      · simp [scan_fields, h1, hc1]

/-- A record of three fields `a,d,se` is decoded by `load_pref` into
`auto_season = a`, `season = se`, the day `|d|` in `cached_day` (the least
`int`, which has no negative, stays), and the hemisphere from the sign of `d`:
South exactly when `d < 0`.  `cur_day` is not written. -/
theorem load_pref_three_fields (s : State) (c : List Char) (a d se : Int)
    (hfile : s.pref_file = some c) (hf : scan_fields c = Fields.three a d se) :
    (load_pref s).auto_season = a ∧ (load_pref s).season = se ∧
    (load_pref s).cached_day = (if d = -2147483648 then d else |d|) ∧
    (load_pref s).nh = (if d < 0 then 0 else 1) ∧
    (load_pref s).cur_day = s.cur_day := by
  obtain ⟨hlo, hhi⟩ := (scan_fields_second_range c).2 a d se hf
  obtain ⟨hneg, hmin⟩ := neg_int_eq d hlo hhi
  simp only [load_pref, hfile, fscanf_pref, hf]
  by_cases hd : d < 0
  · by_cases hm : d = -2147483648
    · have h0 : neg_int (-2147483648) = -2147483648 := by decide
      simp [hd, hm, h0]
    · simp [hd, hm, hneg hm, abs_of_neg hd]
  · have hm : d ≠ -2147483648 := by omega
    simp [hd, hm, abs_of_nonneg (not_lt.mp hd)]

/-- The scan on three contents at the edge of `%i`: a bare `0x` converts to 0 and
the scan goes on; a field beyond `int` is stored reduced to 32 bits; the least
`int` in the day field gives the southern hemisphere and stays as it is. -/
theorem scan_edge_contents :
    (scan_fields "1,0x,3".toList).count = 3 ∧
    (load_pref (before_load_pref (some "1,0x,3".toList) 0 2 3 4 5)).auto_season = 1 ∧
    (load_pref (before_load_pref (some "1,0x,3".toList) 0 2 3 4 5)).cached_day = 0 ∧
    (load_pref (before_load_pref (some "1,0x,3".toList) 0 2 3 4 5)).season = 3 ∧
    (load_pref (before_load_pref (some "1,99999999999,x".toList) 0 2 3 4 5)).cached_day
      = 1215752191 ∧
    (load_pref (before_load_pref (some "1,-2147483648,x".toList) 0 2 3 4 5)).cached_day
      = -2147483648 ∧
    (load_pref (before_load_pref (some "1,-2147483648,x".toList) 0 2 3 4 5)).nh = 0 := by
  decide

/-- C9, as stated, fails: the content `1,-5,x` converts two fields only, and
`load_pref` from the start-up state leaves 5 in `cached_day`, not the sentinel
999 (and `nh = 0`). -/
theorem load_pref_partial_record_sets_day :
    (scan_fields "1,-5,x".toList).count = 2 ∧
    (load_pref (before_load_pref (some "1,-5,x".toList) 0 2 3 4 5)).cached_day = 5 ∧
    (load_pref (before_load_pref (some "1,-5,x".toList) 0 2 3 4 5)).nh = 0 ∧
    (load_pref (before_load_pref (some "1,-5,x".toList) 0 2 3 4 5)).auto_season = 0 := by
  decide

/-- C9, amended. For every file content of which `fscanf` does not convert
three fields, `load_pref` from the start-up state ends with `auto_season = 0`,
`season = 0` and `cur_day = 999`; `cached_day` is still 999 (and `nh` is 1) when
fewer than two fields convert; when two fields convert, `cached_day` is the
absolute value of the second field as stored in its `int` (the least `int`
stays as it is) and `nh` is 0 exactly when that field is negative. -/
theorem load_pref_malformed (c : List Char) (ai i0 i1 i2 i3 : Int)
    (hbad : (scan_fields c).count ≠ 3) :
    (load_pref (before_load_pref (some c) ai i0 i1 i2 i3)).auto_season = 0 ∧
    (load_pref (before_load_pref (some c) ai i0 i1 i2 i3)).season = 0 ∧
    (load_pref (before_load_pref (some c) ai i0 i1 i2 i3)).cur_day = 999 ∧
    ((scan_fields c).count < 2 →
      (load_pref (before_load_pref (some c) ai i0 i1 i2 i3)).cached_day = 999 ∧
      (load_pref (before_load_pref (some c) ai i0 i1 i2 i3)).nh = 1) ∧
    (∀ a d : Int, scan_fields c = Fields.two a d →
      (load_pref (before_load_pref (some c) ai i0 i1 i2 i3)).cached_day =
        (if d = -2147483648 then d else |d|) ∧
      (load_pref (before_load_pref (some c) ai i0 i1 i2 i3)).nh =
        (if d < 0 then 0 else 1)) := by
  cases hf : scan_fields c with
  | zero =>
    simp [load_pref, before_load_pref, static_init, fscanf_pref, hf, Fields.count]
  | one a =>
    simp [load_pref, before_load_pref, static_init, fscanf_pref, hf, Fields.count]
  | two a d =>
    obtain ⟨hlo, hhi⟩ := (scan_fields_second_range c).1 a d hf
    obtain ⟨hneg, hmin⟩ := neg_int_eq d hlo hhi
    simp only [load_pref, before_load_pref, static_init, fscanf_pref, hf, Fields.count]
    by_cases hd : d < 0
    · by_cases hm : d = -2147483648
      · have h0 : neg_int (-2147483648) = -2147483648 := by decide
        simp [hd, hm, h0]
      · simp [hd, hm, hneg hm, abs_of_neg hd]
    · have hm : d ≠ -2147483648 := by omega
      simp [hd, hm, abs_of_nonneg (not_lt.mp hd)]
  | three a d se =>
    simp [hf, Fields.count] at hbad

/-- C9, amended, at the scenario of the specification: the content `garbage`
gives manual mode, Winter, and both day variables at 999. -/
theorem load_pref_malformed_witness :
    (scan_fields "garbage".toList).count ≠ 3 ∧
    (load_pref (before_load_pref (some "garbage".toList) 0 2 3 4 5)).auto_season = 0 ∧
    (load_pref (before_load_pref (some "garbage".toList) 0 2 3 4 5)).season = 0 ∧
    (load_pref (before_load_pref (some "garbage".toList) 0 2 3 4 5)).cur_day = 999 ∧
    (load_pref (before_load_pref (some "garbage".toList) 0 2 3 4 5)).cached_day = 999 :=
  have h := load_pref_malformed "garbage".toList 0 2 3 4 5 (by decide)
  ⟨by decide, h.1, h.2.1, h.2.2.1, (h.2.2.2.1 (by decide)).1⟩

/-- C10, at the failing input: with no preference file `load_pref` leaves the
start-up state as it is, southern hemisphere (`nh = 0`) included, while with the
unparsable content `garbage` it ends on the northern hemisphere (`nh = 1`); the
other variables agree. -/
theorem load_pref_missing_file_keeps_nh_zero :
    (load_pref (before_load_pref none 0 2 3 4 5)).nh = 0 ∧
    (load_pref (before_load_pref (some "garbage".toList) 0 2 3 4 5)).nh = 1 ∧
    (load_pref (before_load_pref none 0 2 3 4 5)).auto_season = 0 ∧
    (load_pref (before_load_pref (some "garbage".toList) 0 2 3 4 5)).auto_season = 0 ∧
    (load_pref (before_load_pref none 0 2 3 4 5)).season = 0 ∧
    (load_pref (before_load_pref (some "garbage".toList) 0 2 3 4 5)).season = 0 ∧
    (load_pref (before_load_pref none 0 2 3 4 5)).cur_day = 999 ∧
    (load_pref (before_load_pref (some "garbage".toList) 0 2 3 4 5)).cur_day = 999 ∧
    (load_pref (before_load_pref none 0 2 3 4 5)).cached_day = 999 ∧
    (load_pref (before_load_pref (some "garbage".toList) 0 2 3 4 5)).cached_day = 999 := by
  decide

/-! ## Notifications and day bands: theorems -/

/-- In automatic mode the season `set_season_auto` sets is the one of the
threshold table, for every day. -/
theorem set_season_auto_table_all (s : State) (day : Int) (hauto : s.auto_season ≠ 0) :
    (set_season_auto s day).season = spec_threshold_season (decide (s.nh ≠ 0)) day ∧
    (set_season_auto s day).cur_day = day := by
  refine ⟨?_, by simp [set_season_auto, hauto]⟩
  by_cases hday : day = 0
  · subst hday
    by_cases hn : s.nh = 0 <;> simp [set_season_auto, spec_threshold_season, hauto, hn]
  · exact set_season_auto_table s day hauto hday

/-- `set_season_auto` writes nothing but `season` and `cur_day`. -/
theorem set_season_auto_vars (s : State) (day : Int) :
    (set_season_auto s day).auto_season = s.auto_season ∧
    (set_season_auto s day).nh = s.nh ∧
    (set_season_auto s day).airport_loaded = s.airport_loaded ∧
    (set_season_auto s day).cached_day = s.cached_day ∧
    (set_season_auto s day).menu = s.menu ∧
    (set_season_auto s day).auto_item = s.auto_item ∧
    (set_season_auto s day).season_item0 = s.season_item0 ∧
    (set_season_auto s day).season_item1 = s.season_item1 ∧
    (set_season_auto s day).season_item2 = s.season_item2 ∧
    (set_season_auto s day).season_item3 = s.season_item3 := by
  by_cases h : s.auto_season = 0 <;> simp [set_season_auto, h]

/-- C14. Scenery-load gating: while `airport_loaded` is 0, every message other
than "airport loaded" leaves the state as it is; "airport loaded" always runs
the update and leaves `airport_loaded = 1`; no notification resets a non-zero
`airport_loaded`; and with `airport_loaded` non-zero "scenery loaded" runs the
update too. -/
theorem scenery_load_gating (s : State) (in_msg host_day : Int) (lat : Double) :
    (s.airport_loaded = 0 → in_msg ≠ XPLM_MSG_AIRPORT_LOADED →
      XPluginReceiveMessage s in_msg host_day lat = s) ∧
    (XPluginReceiveMessage s XPLM_MSG_AIRPORT_LOADED host_day lat =
        set_season_auto
          { s with airport_loaded := 1, nh := if lat.ge_zero then 1 else 0 } host_day ∧
      (XPluginReceiveMessage s XPLM_MSG_AIRPORT_LOADED host_day lat).airport_loaded = 1) ∧
    (s.airport_loaded ≠ 0 →
      (XPluginReceiveMessage s in_msg host_day lat).airport_loaded ≠ 0) ∧
    (s.airport_loaded ≠ 0 →
      XPluginReceiveMessage s XPLM_MSG_SCENERY_LOADED host_day lat =
        set_season_auto
          { s with airport_loaded := 1, nh := if lat.ge_zero then 1 else 0 } host_day) := by
  refine ⟨?_, ⟨?_, ?_⟩, ?_, ?_⟩
  · intro h0 hmsg
    simp [XPluginReceiveMessage, h0, hmsg]
  · simp [XPluginReceiveMessage]
  · simp [XPluginReceiveMessage, (set_season_auto_vars _ host_day).2.2.1]
  · intro h1
    unfold XPluginReceiveMessage
    split
    · rw [(set_season_auto_vars _ host_day).2.2.1]
      simp
    · exact h1
  · intro h1
    simp [XPluginReceiveMessage, h1]

/-- C14, at the start-up state (no airport loaded yet) and at a running
session: "scenery loaded" changes nothing in the first, and in the second it
runs the update. -/
theorem scenery_load_gating_witness :
    ((before_load_pref none 0 2 3 4 5).airport_loaded = 0 ∧
      XPLM_MSG_SCENERY_LOADED ≠ XPLM_MSG_AIRPORT_LOADED ∧
      XPluginReceiveMessage (before_load_pref none 0 2 3 4 5) XPLM_MSG_SCENERY_LOADED 100
        (Double.num 48) = before_load_pref none 0 2 3 4 5) ∧
    (north_auto_started.airport_loaded ≠ 0 ∧
      (XPluginReceiveMessage north_auto_started XPLM_MSG_SCENERY_LOADED 100
        (Double.num 48)).airport_loaded ≠ 0 ∧
      XPluginReceiveMessage north_auto_started XPLM_MSG_SCENERY_LOADED 100 (Double.num 48) =
        set_season_auto
          { north_auto_started with
            airport_loaded := 1, nh := if (Double.num 48).ge_zero then 1 else 0 } 100) :=
  ⟨⟨by decide, by decide,
      (scenery_load_gating (before_load_pref none 0 2 3 4 5) XPLM_MSG_SCENERY_LOADED 100
        (Double.num 48)).1 (by decide) (by decide)⟩,
    by decide,
    (scenery_load_gating north_auto_started XPLM_MSG_SCENERY_LOADED 100
      (Double.num 48)).2.2.1 (by decide),
    (scenery_load_gating north_auto_started XPLM_MSG_SCENERY_LOADED 100
      (Double.num 48)).2.2.2 (by decide)⟩

/-- C15, as stated, fails: in automatic mode on the southern hemisphere
`set_season_auto 100` gives Autumn (3), not Summer (2). -/
theorem set_season_auto_south_day_100_not_summer :
    south_auto.auto_season ≠ 0 ∧ south_auto.nh = 0 ∧
    (set_season_auto south_auto 100).season = 3 ∧
    (set_season_auto south_auto 100).season ≠ 2 := by
  decide

/-- C15, amended. With the southern hemisphere, day 100 and automatic mode,
`set_season_auto 100` results in Autumn (3), the season of the band 81..172
shifted by two. -/
theorem set_season_auto_south_day_100 (s : State)
    (hauto : s.auto_season ≠ 0) (hsouth : s.nh = 0) :
    (set_season_auto s 100).season = 3 := by
  simp [set_season_auto, hauto, hsouth]

/-- C15, amended, at a southern state in automatic mode. -/
theorem set_season_auto_south_day_100_witness :
    (south_auto.auto_season ≠ 0 ∧ south_auto.nh = 0) ∧
    (set_season_auto south_auto 100).season = 3 :=
  ⟨⟨by decide, by decide⟩, set_season_auto_south_day_100 south_auto (by decide) (by decide)⟩

/-- C16. Out-of-table fallback: in automatic mode, for a day that is negative or
greater than 365, `set_season_auto` yields the season it yields for any day
after 355: Winter (0) in the North, Summer (2) in the South. -/
theorem set_season_auto_out_of_table (s : State) (day : Int)
    (hauto : s.auto_season ≠ 0) (hout : day < 0 ∨ 365 < day) :
    (∀ late : Int, 355 < late →
      (set_season_auto s day).season = (set_season_auto s late).season) ∧
    (s.nh ≠ 0 → (set_season_auto s day).season = 0) ∧
    (s.nh = 0 → (set_season_auto s day).season = 2) := by
  have hnorth : s.nh ≠ 0 → (set_season_auto s day).season = 0 := by
    intro hn
    rcases hout with h | h
    · have h1 : day ≤ 80 := by omega
      simp [set_season_auto, hauto, hn, h1]
    · have h1 : ¬ day ≤ 80 := by omega
      have h2 : ¬ day ≤ 172 := by omega
      have h3 : ¬ day ≤ 264 := by omega
      have h4 : ¬ day ≤ 355 := by omega
      have h5 : day ≠ 0 := by omega
      simp [set_season_auto, hauto, hn, h1, h2, h3, h4, h5]
  have hsouth : s.nh = 0 → (set_season_auto s day).season = 2 := by
    intro hn
    rcases hout with h | h
    · have h1 : day ≤ 80 := by omega
      simp [set_season_auto, hauto, hn, h1]
    · have h1 : ¬ day ≤ 80 := by omega
      have h2 : ¬ day ≤ 172 := by omega
      have h3 : ¬ day ≤ 264 := by omega
      have h4 : ¬ day ≤ 355 := by omega
      have h5 : day ≠ 0 := by omega
      simp [set_season_auto, hauto, hn, h1, h2, h3, h4, h5]
  refine ⟨?_, hnorth, hsouth⟩
  intro late hlate
  have h1 : ¬ late ≤ 80 := by omega
  have h2 : ¬ late ≤ 172 := by omega
  have h3 : ¬ late ≤ 264 := by omega
  have h4 : ¬ late ≤ 355 := by omega
  have h5 : late ≠ 0 := by omega
  by_cases hn : s.nh = 0
  · rw [hsouth hn]
    simp [set_season_auto, hauto, hn, h1, h2, h3, h4, h5]
  · rw [hnorth hn]
    simp [set_season_auto, hauto, hn, h1, h2, h3, h4, h5]

/-- C16, at day -5 in the North and day 400 in the South. -/
theorem set_season_auto_out_of_table_witness :
    ((north_auto.auto_season ≠ 0 ∧ ((-5 : Int) < 0 ∨ (365 : Int) < -5)) ∧
      north_auto.nh ≠ 0 ∧ (set_season_auto north_auto (-5)).season = 0) ∧
    ((south_auto.auto_season ≠ 0 ∧ ((400 : Int) < 0 ∨ (365 : Int) < 400)) ∧
      south_auto.nh = 0 ∧ (set_season_auto south_auto 400).season = 2) :=
  ⟨⟨⟨by decide, by decide⟩, by decide,
      (set_season_auto_out_of_table north_auto (-5) (by decide) (by decide)).2.1 (by decide)⟩,
    ⟨by decide, by decide⟩, by decide,
    (set_season_auto_out_of_table south_auto 400 (by decide) (by decide)).2.2 (by decide)⟩

/-- C17, as stated, fails: on the southern hemisphere day 100 is Autumn (3) and
the later day 200 is Winter (0). -/
theorem south_season_index_not_monotone :
    south_auto.auto_season ≠ 0 ∧ south_auto.nh = 0 ∧ (100 : Int) ≤ 200 ∧
    (set_season_auto south_auto 100).season = 3 ∧
    (set_season_auto south_auto 200).season = 0 ∧
    ¬ (set_season_auto south_auto 100).season ≤ (set_season_auto south_auto 200).season := by
  decide

/-- C17, amended. For days `d1 ≤ d2` of 1..355 in automatic mode: on the
northern hemisphere the season index of `d1` is at most that of `d2`; on the
southern hemisphere the same holds for the index shifted back by two (modulo
four); on both hemispheres every day gets one season of 0..3, and the days of a
season form one band: a day between two days of the same season has that
season.  The bands are the four intervals 1..80, 81..172, 173..264 and
265..355: a day of 1..355 has season 0, 1, 2, 3 in the North, and 2, 3, 0, 1 in
the South, exactly when it lies in the first, second, third, fourth of them. -/
theorem season_bands (s : State) (d1 d2 : Int) (hauto : s.auto_season ≠ 0)
    (h1 : 1 ≤ d1) (h12 : d1 ≤ d2) (h2 : d2 ≤ 355) :
    (s.nh ≠ 0 → (set_season_auto s d1).season ≤ (set_season_auto s d2).season) ∧
    (s.nh = 0 → ((set_season_auto s d1).season + 2) % 4 ≤
      ((set_season_auto s d2).season + 2) % 4) ∧
    (0 ≤ (set_season_auto s d1).season ∧ (set_season_auto s d1).season ≤ 3) ∧
    (∀ d : Int, d1 ≤ d → d ≤ d2 →
      (set_season_auto s d1).season = (set_season_auto s d2).season →
      (set_season_auto s d).season = (set_season_auto s d1).season) ∧
    (s.nh ≠ 0 → ∀ d : Int, 1 ≤ d → d ≤ 355 →
      ((set_season_auto s d).season = 0 ↔ d ≤ 80) ∧
      ((set_season_auto s d).season = 1 ↔ 81 ≤ d ∧ d ≤ 172) ∧
      ((set_season_auto s d).season = 2 ↔ 173 ≤ d ∧ d ≤ 264) ∧
      ((set_season_auto s d).season = 3 ↔ 265 ≤ d)) ∧
    (s.nh = 0 → ∀ d : Int, 1 ≤ d → d ≤ 355 →
      ((set_season_auto s d).season = 2 ↔ d ≤ 80) ∧
      ((set_season_auto s d).season = 3 ↔ 81 ≤ d ∧ d ≤ 172) ∧
      ((set_season_auto s d).season = 0 ↔ 173 ≤ d ∧ d ≤ 264) ∧
      ((set_season_auto s d).season = 1 ↔ 265 ≤ d)) := by
  have key : ∀ d : Int, d ≤ 355 → (set_season_auto s d).season =
      if s.nh ≠ 0 then
        (if d ≤ 80 then 0 else if d ≤ 172 then 1 else if d ≤ 264 then 2 else 3)
      else
        (if d ≤ 80 then 2 else if d ≤ 172 then 3 else if d ≤ 264 then 0 else 1) := by
    intro d hd
    by_cases hn : s.nh = 0 <;> simp [set_season_auto, hauto, hn, hd]
  refine ⟨?_, ?_, ?_, ?_, ?_, ?_⟩
  · intro hn
    rw [key d1 (by omega), key d2 h2]
    simp only [hn, ne_eq, not_false_eq_true, if_true]
    split_ifs <;> omega
  · intro hn
    rw [key d1 (by omega), key d2 h2]
    simp only [hn, ne_eq, not_true_eq_false, if_false]
    split_ifs <;> omega
  · rw [key d1 (by omega)]
    split_ifs <;> omega
  · intro d hd1 hd2
    rw [key d1 (by omega), key d2 h2, key d (by omega)]
    split_ifs <;> omega
  · intro hn d hlo hhi
    rw [key d hhi]
    simp only [hn, ne_eq, not_false_eq_true, if_true]
    split_ifs <;> omega
  · intro hn d hlo hhi
    rw [key d hhi]
    simp only [hn, ne_eq, not_true_eq_false, if_false]
    split_ifs <;> omega

/-- C17, amended, at the days 100 and 200 of a northern and of a southern state
in automatic mode; in the South day 300, of the fourth band, has season 1. -/
theorem season_bands_witness :
    ((north_auto.auto_season ≠ 0 ∧ (1 : Int) ≤ 100 ∧ (100 : Int) ≤ 200 ∧ (200 : Int) ≤ 355) ∧
      north_auto.nh ≠ 0 ∧
      (set_season_auto north_auto 100).season ≤ (set_season_auto north_auto 200).season) ∧
    ((south_auto.auto_season ≠ 0 ∧ (1 : Int) ≤ 100 ∧ (100 : Int) ≤ 200 ∧ (200 : Int) ≤ 355) ∧
      south_auto.nh = 0 ∧
      ((set_season_auto south_auto 100).season + 2) % 4 ≤
        ((set_season_auto south_auto 200).season + 2) % 4 ∧
      (set_season_auto south_auto 300).season = 1) :=
  ⟨⟨⟨by decide, by decide, by decide, by decide⟩, by decide,
      (season_bands north_auto 100 200 (by decide) (by decide) (by decide) (by decide)).1
        (by decide)⟩,
    ⟨by decide, by decide, by decide, by decide⟩, by decide,
    (season_bands south_auto 100 200 (by decide) (by decide) (by decide) (by decide)).2.1
      (by decide),
    ((season_bands south_auto 100 200 (by decide) (by decide) (by decide)
      (by decide)).2.2.2.2.2 (by decide) 300 (by decide) (by decide)).2.2.2.2 (by decide)⟩

/-- C18. Qualifying notification update: on "airport loaded", or on "scenery
loaded" once `airport_loaded` is set, `XPluginReceiveMessage` sets `nh` to 1
when the latitude is at least 0 (0 itself included) and to 0 otherwise, in
automatic and in manual mode; in automatic mode it sets the season to the
threshold-table season of that hemisphere and the host day, and `cur_day` to
the host day. -/
theorem qualifying_notification_update (s : State) (in_msg host_day : Int) (lat : Double)
    (hq : in_msg = XPLM_MSG_AIRPORT_LOADED ∨
      (s.airport_loaded ≠ 0 ∧ in_msg = XPLM_MSG_SCENERY_LOADED)) :
    ((XPluginReceiveMessage s in_msg host_day lat).nh ≠ 0 ↔ ∃ q : ℚ, lat = Double.num q ∧ 0 ≤ q) ∧
    (lat = Double.num 0 → (XPluginReceiveMessage s in_msg host_day lat).nh ≠ 0) ∧
    (s.auto_season ≠ 0 →
      (XPluginReceiveMessage s in_msg host_day lat).season =
        spec_threshold_season
          (decide ((XPluginReceiveMessage s in_msg host_day lat).nh ≠ 0)) host_day ∧
      (XPluginReceiveMessage s in_msg host_day lat).cur_day = host_day) := by
  have hx : XPluginReceiveMessage s in_msg host_day lat =
      set_season_auto
        { s with airport_loaded := 1, nh := if lat.ge_zero then 1 else 0 } host_day := by
    simp [XPluginReceiveMessage, hq]
  have hnh : (XPluginReceiveMessage s in_msg host_day lat).nh =
      if lat.ge_zero then 1 else 0 := by
    rw [hx, (set_season_auto_vars _ host_day).2.1]
  refine ⟨?_, ?_, ?_⟩
  · rw [hnh]
    cases lat with
    | nan => simp [Double.ge_zero]
    | num q => simp [Double.ge_zero]
  · intro h0
    rw [hnh, h0]
    simp [Double.ge_zero]
  · intro hauto
    rw [hnh, hx]
    have h := set_season_auto_table_all
      { s with airport_loaded := 1, nh := if lat.ge_zero then 1 else 0 } host_day hauto
    exact h

/-- C18, at a manual state on the southern hemisphere receiving "airport
loaded" at latitude 0, and at an automatic state receiving it on day 100 at
latitude 48. -/
theorem qualifying_notification_update_witness :
    ((XPLM_MSG_AIRPORT_LOADED = XPLM_MSG_AIRPORT_LOADED ∨
        (south_manual.airport_loaded ≠ 0 ∧
          XPLM_MSG_AIRPORT_LOADED = XPLM_MSG_SCENERY_LOADED)) ∧
      south_manual.nh = 0 ∧
      (XPluginReceiveMessage south_manual XPLM_MSG_AIRPORT_LOADED 100 (Double.num 0)).nh ≠ 0) ∧
    (north_auto.auto_season ≠ 0 ∧
      (XPluginReceiveMessage north_auto XPLM_MSG_AIRPORT_LOADED 100 (Double.num 48)).season =
        spec_threshold_season
          (decide ((XPluginReceiveMessage north_auto XPLM_MSG_AIRPORT_LOADED 100
            (Double.num 48)).nh ≠ 0)) 100 ∧
      (XPluginReceiveMessage north_auto XPLM_MSG_AIRPORT_LOADED 100 (Double.num 48)).cur_day
        = 100) :=
  ⟨⟨Or.inl rfl, by decide,
      (qualifying_notification_update south_manual XPLM_MSG_AIRPORT_LOADED 100 (Double.num 0)
        (Or.inl rfl)).2.1 rfl⟩,
    by decide,
    (qualifying_notification_update north_auto XPLM_MSG_AIRPORT_LOADED 100 (Double.num 48)
      (Or.inl rfl)).2.2 (by decide)⟩

/-! ## Invariants: theorems -/

/-- `set_season_auto` keeps the season within 0..3. -/
theorem set_season_auto_range (s : State) (day : Int)
    (hr : 0 ≤ s.season ∧ s.season ≤ 3) :
    0 ≤ (set_season_auto s day).season ∧ (set_season_auto s day).season ≤ 3 := by
  by_cases ha : s.auto_season = 0
  · simp [set_season_auto, ha, hr]
  · by_cases hn : s.nh = 0 <;> simp only [set_season_auto, ha, hn] <;>
      split_ifs <;> simp_all

/-- C19. Season range invariant: from a state with the season in 0..3,
`set_season_auto` with any day and `XPluginReceiveMessage` with any message keep
the season in 0..3, and `menu_cb` with an item of 0..4, whatever check mark the
host reports, returns a state with the season in 0..3; so `season_item[season]`
is an element of the array, and exactly one of the four accessors answers 1,
the one of the current season. -/
theorem season_range_invariant (s : State) (hr : 0 ≤ s.season ∧ s.season ≤ 3) :
    (∀ day : Int,
      0 ≤ (set_season_auto s day).season ∧ (set_season_auto s day).season ≤ 3) ∧
    (∀ (in_msg host_day : Int) (lat : Double),
      0 ≤ (XPluginReceiveMessage s in_msg host_day lat).season ∧
      (XPluginReceiveMessage s in_msg host_day lat).season ≤ 3) ∧
    (∀ (item host_day : Int) (fopen_ok : Bool), 0 ≤ item ∧ item ≤ 4 →
      ∃ s2, menu_cb s item host_day fopen_ok = some s2 ∧ 0 ≤ s2.season ∧ s2.season ≤ 3) ∧
    (∃ it, season_item s s.season = some it) ∧
    active_accessors s = [s.season] := by
  refine ⟨fun day => set_season_auto_range s day hr, ?_, ?_, ?_, ?_⟩
  · intro in_msg host_day lat
    unfold XPluginReceiveMessage
    split
    · exact set_season_auto_range _ host_day hr
    · exact hr
  · intro item host_day fopen_ok hitem
    have hfin : ∀ c : State, 0 ≤ c.season ∧ c.season ≤ 3 →
        ∃ s2, ((some c).bind set_menu).map (fun s2 => save_pref s2 fopen_ok) = some s2 ∧
          0 ≤ s2.season ∧ s2.season ≤ 3 := by
      intro c hc
      obtain ⟨s1, hs1, _, hv, _⟩ := set_menu_result c (Or.inr hc)
      refine ⟨save_pref s1 fopen_ok, by simp [hs1], ?_⟩
      rw [(save_pref_vars s1 fopen_ok).2.1, hv.2.2.2.2.2.1]
      exact hc
    by_cases h4 : item = 4
    · have := hfin (set_season_auto
        { s with auto_season := if s.auto_season = 0 then 1 else 0 } host_day)
        (set_season_auto_range _ host_day hr)
      simpa [menu_cb, h4] using this
    · have hc : item = 0 ∨ item = 1 ∨ item = 2 ∨ item = 3 := by omega
      by_cases hchk : XPLMCheckMenuItemState s ((season_item s item).getD 0) = 0
      · have := hfin (set_season_auto { s with auto_season := 1 } host_day)
          (set_season_auto_range _ host_day hr)
        rcases hc with hc | hc | hc | hc <;> subst hc <;>
          simp [season_item] at hchk <;>
          simpa [menu_cb, season_item, hchk] using this
      · have := hfin { s with auto_season := 0, season := item } (by constructor <;> simp <;> omega)
        rcases hc with hc | hc | hc | hc <;> subst hc <;>
          simp [season_item] at hchk <;>
          simpa [menu_cb, season_item, hchk] using this
  · have hc : s.season = 0 ∨ s.season = 1 ∨ s.season = 2 ∨ s.season = 3 := by omega
    rcases hc with hc | hc | hc | hc <;> simp [season_item, hc]
  · have hc : s.season = 0 ∨ s.season = 1 ∨ s.season = 2 ∨ s.season = 3 := by omega
    rcases hc with hc | hc | hc | hc <;>
      simp [active_accessors, read_season_acc, List.filter, hc]

/-- C19, at a manual state with Spring pinned: selecting Winter (item 0) returns
a state with the season in 0..3, and in the state itself only the Spring
accessor answers 1. -/
theorem season_range_invariant_witness :
    (0 ≤ south_manual_started.season ∧ south_manual_started.season ≤ 3) ∧
    ((0 : Int) ≤ 0 ∧ (0 : Int) ≤ 4) ∧
    (∃ s2, menu_cb south_manual_started 0 10 true = some s2 ∧ 0 ≤ s2.season ∧ s2.season ≤ 3) ∧
    active_accessors south_manual_started = [1] :=
  have h := season_range_invariant south_manual_started ⟨by decide, by decide⟩
  ⟨⟨by decide, by decide⟩, ⟨by decide, by decide⟩,
    h.2.2.1 0 10 true ⟨by decide, by decide⟩, h.2.2.2.2⟩

/-- C13, at the failing input: in the manual state with Spring pinned and its
item checked, the host reports the mark `xplm_Menu_Checked` for the Spring
item; `menu_cb` with that item (entry 1) returns a state in manual mode with
Spring, while `menu_cb` with the Automatic item (entry 4) returns a state in
automatic mode with the season inferred (Summer in the South on day 10). -/
theorem menu_cb_checked_season_stays_manual :
    south_manual_started.auto_season = 0 ∧ south_manual_started.season = 1 ∧
    XPLMCheckMenuItemState south_manual_started south_manual_started.season_item1
      = xplm_Menu_Checked ∧
    (menu_cb south_manual_started 1 10 true).map (fun s => s.auto_season) = some 0 ∧
    (menu_cb south_manual_started 1 10 true).map (fun s => s.season) = some 1 ∧
    (menu_cb south_manual_started 4 10 true).map (fun s => s.auto_season) = some 1 ∧
    (menu_cb south_manual_started 4 10 true).map (fun s => s.season) = some 2 := by
  decide

/-- C20, at the failing input: `load_pref` from the start-up state on the record
`1,145,1` followed at once by `save_pref` writes `1,999,1`; on `0,-300,0` it
writes `0,-999,0`.  The day of the record is in `cached_day`, and `save_pref`
prints `cur_day`, still at its initial 999. -/
theorem load_then_save_writes_sentinel_day :
    (load_pref (before_load_pref (some "1,145,1".toList) 0 2 3 4 5)).cached_day = 145 ∧
    (load_pref (before_load_pref (some "1,145,1".toList) 0 2 3 4 5)).cur_day = 999 ∧
    (save_pref (load_pref (before_load_pref (some "1,145,1".toList) 0 2 3 4 5)) true).pref_file
      = some "1,999,1".toList ∧
    (save_pref (load_pref (before_load_pref (some "0,-300,0".toList) 0 2 3 4 5)) true).pref_file
      = some "0,-999,0".toList ∧
    ((XPluginStart (some "1,145,1".toList) 0 2 3 4 5).map
      (fun s => (XPluginDisable s true).pref_file)) = some (some "1,999,1".toList) := by
  decide

/-- After `set_season_auto` the state is consistent, whatever it was before. -/
theorem set_season_auto_consistent (s : State) (day : Int) :
    auto_consistent (set_season_auto s day) := by
  intro hauto
  have ha : s.auto_season ≠ 0 := by
    rw [(set_season_auto_vars s day).1] at hauto
    exact hauto
  rw [(set_season_auto_vars s day).2.1, (set_season_auto_table_all s day ha).2]
  exact (set_season_auto_table_all s day ha).1

/-- A notification keeps a consistent state consistent, and a qualifying one
makes any state consistent. -/
theorem message_consistent (s : State) (in_msg host_day : Int) (lat : Double) :
    (auto_consistent s → auto_consistent (XPluginReceiveMessage s in_msg host_day lat)) ∧
    (in_msg = XPLM_MSG_AIRPORT_LOADED ∨
        (s.airport_loaded ≠ 0 ∧ in_msg = XPLM_MSG_SCENERY_LOADED) →
      auto_consistent (XPluginReceiveMessage s in_msg host_day lat)) := by
  constructor
  · intro hs
    unfold XPluginReceiveMessage
    split
    · exact set_season_auto_consistent _ host_day
    · exact hs
  · intro hq
    simp only [XPluginReceiveMessage, hq, if_true]
    exact set_season_auto_consistent _ host_day

/-- Every state `menu_cb` returns is consistent. -/
theorem menu_cb_consistent (s s2 : State) (item host_day : Int) (fopen_ok : Bool)
    (h : menu_cb s item host_day fopen_ok = some s2) : auto_consistent s2 := by
  have hfin : ∀ c : State, auto_consistent c →
      ((some c).bind set_menu).map (fun s2 => save_pref s2 fopen_ok) = some s2 →
      auto_consistent s2 := by
    intro c hc hm
    simp only [Option.some_bind, Option.map_eq_some'] at hm
    obtain ⟨s1, hs1, hsave⟩ := hm
    obtain ⟨s1', hs1', _, hv, _⟩ := set_menu_result c (set_menu_some_range c s1 hs1)
    have : s1' = s1 := by
      rw [hs1] at hs1'
      exact (Option.some.inj hs1').symm
    subst this
    subst hsave
    have hsv := save_pref_vars s1' fopen_ok
    intro hauto
    rw [hsv.1, hv.1] at hauto
    rw [hsv.2.1, hsv.2.2.1, hsv.2.2.2.1, hv.2.2.2.2.2.1, hv.2.2.1, hv.2.2.2.1]
    exact hc hauto
  by_cases h4 : item = 4
  · apply hfin _ (set_season_auto_consistent _ host_day)
    simpa [menu_cb, h4] using h
  · cases hit : season_item s item with
    | none => simp [menu_cb, h4, hit] at h
    | some it =>
      by_cases hchk : XPLMCheckMenuItemState s it = 0
      · apply hfin _ (set_season_auto_consistent { s with auto_season := 1 } host_day)
        simpa [menu_cb, h4, hit, hchk] using h
      · apply hfin { s with auto_season := 0, season := item } (by simp [auto_consistent])
        simpa [menu_cb, h4, hit, hchk] using h

/-- C11, as stated, fails: `load_pref` from the start-up state on the content
`1,100,3` leaves automatic mode with Autumn (3) on the northern hemisphere,
while the table gives Winter for the last day held in `cur_day` (999) and
Spring for the day decoded into `cached_day` (100). -/
theorem load_pref_breaks_auto_consistency :
    (load_pref (before_load_pref (some "1,100,3".toList) 0 2 3 4 5)).auto_season = 1 ∧
    (load_pref (before_load_pref (some "1,100,3".toList) 0 2 3 4 5)).season = 3 ∧
    (load_pref (before_load_pref (some "1,100,3".toList) 0 2 3 4 5)).nh = 1 ∧
    (load_pref (before_load_pref (some "1,100,3".toList) 0 2 3 4 5)).cur_day = 999 ∧
    (load_pref (before_load_pref (some "1,100,3".toList) 0 2 3 4 5)).cached_day = 100 ∧
    spec_threshold_season true 999 = 0 ∧ spec_threshold_season true 100 = 1 ∧
    ¬ auto_consistent (load_pref (before_load_pref (some "1,100,3".toList) 0 2 3 4 5)) := by
  refine ⟨by decide, by decide, by decide, by decide, by decide, by decide, by decide, ?_⟩
  intro h
  have h3 := h (by decide)
  revert h3
  decide

/-- C11, amended. Consistency is kept by menu clicks and notifications, not by
`load_pref`: from a consistent state, such as the initial one, every state
reached by any sequence of `menu_cb` and `XPluginReceiveMessage` is consistent
(in automatic mode the season is the threshold-table season of `nh` and
`cur_day`); and from any state at all, such as the one `load_pref` leaves, the
state returned by a `menu_cb` and the state after a qualifying notification are
consistent. -/
theorem auto_consistent_reached (s0 s : State) (hr : Reached s0 s) :
    (auto_consistent s0 → auto_consistent s) ∧
    (∀ (item host_day : Int) (fopen_ok : Bool) (s2 : State),
      menu_cb s item host_day fopen_ok = some s2 → auto_consistent s2) ∧
    (∀ (in_msg host_day : Int) (lat : Double),
      in_msg = XPLM_MSG_AIRPORT_LOADED ∨
          (s.airport_loaded ≠ 0 ∧ in_msg = XPLM_MSG_SCENERY_LOADED) →
        auto_consistent (XPluginReceiveMessage s in_msg host_day lat)) := by
  refine ⟨?_, ?_, ?_⟩
  · intro h0
    induction hr with
    | start => exact h0
    | message t in_msg host_day lat _ ih =>
      exact (message_consistent t in_msg host_day lat).1 ih
    | menu t t2 item host_day fopen_ok _ hm _ =>
      exact menu_cb_consistent t t2 item host_day fopen_ok hm
  · intro item host_day fopen_ok s2 hm
    exact menu_cb_consistent s s2 item host_day fopen_ok hm
  · intro in_msg host_day lat hq
    exact (message_consistent s in_msg host_day lat).2 hq

/-- The session `north_auto_started` after "airport loaded" on day 100 at
latitude -33: automatic mode, Autumn. -/
theorem north_auto_started_moved_south :
    (XPluginReceiveMessage north_auto_started XPLM_MSG_AIRPORT_LOADED 100
      (Double.num (-33))).auto_season ≠ 0 ∧
    (XPluginReceiveMessage north_auto_started XPLM_MSG_AIRPORT_LOADED 100
      (Double.num (-33))).season = 3 := by
  simp [XPluginReceiveMessage, XPLM_MSG_AIRPORT_LOADED, ge_zero_south, set_season_auto]
  decide

/-- C11, amended, from a running session in automatic mode: after "airport
loaded" on day 100 at latitude -33 the state is in automatic mode with Autumn,
the table entry of the South and day 100. -/
theorem auto_consistent_reached_witness :
    Reached north_auto_started
      (XPluginReceiveMessage north_auto_started XPLM_MSG_AIRPORT_LOADED 100
        (Double.num (-33))) ∧
    auto_consistent north_auto_started ∧
    auto_consistent
      (XPluginReceiveMessage north_auto_started XPLM_MSG_AIRPORT_LOADED 100
        (Double.num (-33))) ∧
    (XPluginReceiveMessage north_auto_started XPLM_MSG_AIRPORT_LOADED 100
      (Double.num (-33))).auto_season ≠ 0 ∧
    (XPluginReceiveMessage north_auto_started XPLM_MSG_AIRPORT_LOADED 100
      (Double.num (-33))).season = 3 :=
  have hr : Reached north_auto_started
      (XPluginReceiveMessage north_auto_started XPLM_MSG_AIRPORT_LOADED 100
        (Double.num (-33))) :=
    Reached.message _ _ _ _ Reached.start
  have h0 : auto_consistent north_auto_started := fun _ => by decide
  ⟨hr, h0, (auto_consistent_reached _ _ hr).1 h0, north_auto_started_moved_south.1,
    north_auto_started_moved_south.2⟩

/-- When the five item ids are distinct, after `set_menu` the checked items are
the Automatic item alone in automatic mode, and the item of the current season
alone in manual mode. -/
theorem set_menu_checked_items (s s1 : State) (hd : (menu_items s).Nodup)
    (h : set_menu s = some s1) :
    (s.auto_season ≠ 0 → checked_items s1 = [s.auto_item]) ∧
    (s.auto_season = 0 →
      ∃ it, season_item s s.season = some it ∧ checked_items s1 = [it]) := by
  simp only [menu_items, List.nodup_cons, List.mem_cons, List.mem_singleton, not_or,
    List.not_mem_nil, not_false_eq_true, List.nodup_nil, and_true] at hd
  obtain ⟨⟨a0, a1, a2, a3⟩, ⟨b1, b2, b3⟩, ⟨c2, c3⟩, d3⟩ := hd
  by_cases ha : s.auto_season = 0
  · have hr := set_menu_some_range s s1 h
    have hc : s.season = 0 ∨ s.season = 1 ∨ s.season = 2 ∨ s.season = 3 := by
      rcases hr with hr | hr
      · exact absurd ha hr
      · omega
    refine ⟨fun hn => absurd ha hn, fun _ => ?_⟩
    rcases hc with hc | hc | hc | hc <;>
      simp [set_menu, XPLMCheckMenuItem, season_item, List.foldlM, ha, hc] at h <;>
      subst h <;>
      simp [season_item, hc, checked_items, menu_items, List.filter, xplm_Menu_Checked,
        xplm_Menu_Unchecked, a0, a1, a2, a3, b1, b2, b3, c2, c3, d3,
        Ne.symm a0, Ne.symm a1, Ne.symm a2, Ne.symm a3, Ne.symm b1, Ne.symm b2, Ne.symm b3,
        Ne.symm c2, Ne.symm c3, Ne.symm d3]
  · refine ⟨fun _ => ?_, fun h0 => absurd h0 ha⟩
    simp [set_menu, XPLMCheckMenuItem, season_item, List.foldlM, ha] at h
    subst h
    simp [checked_items, menu_items, List.filter, xplm_Menu_Checked,
      xplm_Menu_Unchecked, a0, a1, a2, a3, b1, b2, b3, c2, c3, d3,
      Ne.symm a0, Ne.symm a1, Ne.symm a2, Ne.symm a3, Ne.symm b1, Ne.symm b2, Ne.symm b3,
      Ne.symm c2, Ne.symm c3, Ne.symm d3]

/-- With distinct item ids, the state `set_menu` returns has exactly one checked
item. -/
theorem set_menu_exactly_one (s s1 : State) (hd : (menu_items s).Nodup)
    (h : set_menu s = some s1) : exactly_one_checked s1 := by
  obtain ⟨hauto, hman⟩ := set_menu_checked_items s s1 hd h
  obtain ⟨s1', hs1', hi, hv, _⟩ := set_menu_result s (set_menu_some_range s s1 h)
  have : s1' = s1 := by
    rw [h] at hs1'
    exact (Option.some.inj hs1').symm
  subst this
  have hsi : ∀ i : Int, season_item s1' i = season_item s i := by
    intro i
    simp [season_item, hi.2.1, hi.2.2.1, hi.2.2.2.1, hi.2.2.2.2]
  refine ⟨?_, ?_, ?_⟩
  · by_cases ha : s.auto_season = 0
    · obtain ⟨it, _, hit⟩ := hman ha
      simp [hit]
    · simp [hauto ha]
  · intro ha
    rw [hv.1] at ha
    rw [hi.1]
    exact hauto ha
  · intro ha
    rw [hv.1] at ha
    rw [hsi, hv.2.2.2.2.2.1]
    exact hman ha

/-- `save_pref` keeps the check marks and the item ids, hence the radio-button
property. -/
theorem save_pref_exactly_one (s : State) (ok : Bool) (h : exactly_one_checked s) :
    exactly_one_checked (save_pref s ok) := by
  cases ok
  · simpa [save_pref] using h
  · simpa [save_pref, exactly_one_checked, checked_items, menu_items, season_item] using h

/-- `load_pref` keeps the item ids. -/
theorem load_pref_items (s : State) : menu_items (load_pref s) = menu_items s := by
  unfold load_pref
  cases s.pref_file with
  | none => rfl
  | some c =>
    simp only [fscanf_pref]
    cases scan_fields c <;> simp only [] <;> split_ifs <;> rfl

/-- The state `menu_cb` hands to `set_menu` has the item ids of the state it
started from. -/
theorem menu_cb_some (s s2 : State) (item host_day : Int) (fopen_ok : Bool)
    (h : menu_cb s item host_day fopen_ok = some s2) :
    ∃ c s1, menu_items c = menu_items s ∧ set_menu c = some s1 ∧
      s2 = save_pref s1 fopen_ok := by
  have hfin : ∀ c : State, menu_items c = menu_items s →
      ((some c).bind set_menu).map (fun s2 => save_pref s2 fopen_ok) = some s2 →
      ∃ c s1, menu_items c = menu_items s ∧ set_menu c = some s1 ∧
        s2 = save_pref s1 fopen_ok := by
    intro c hc hm
    simp only [Option.some_bind, Option.map_eq_some'] at hm
    obtain ⟨s1, hs1, hsave⟩ := hm
    exact ⟨c, s1, hc, hs1, hsave.symm⟩
  have hitems : ∀ (t : State) (d : Int), menu_items t = menu_items s →
      menu_items (set_season_auto t d) = menu_items s := by
    intro t d ht
    rw [← ht]
    have hv := set_season_auto_vars t d
    simp [menu_items, hv.2.2.2.2.2.1, hv.2.2.2.2.2.2.1, hv.2.2.2.2.2.2.2.1,
      hv.2.2.2.2.2.2.2.2.1, hv.2.2.2.2.2.2.2.2.2]
  by_cases h4 : item = 4
  · apply hfin _ (hitems { s with auto_season := if s.auto_season = 0 then 1 else 0 }
      host_day rfl)
    simpa [menu_cb, h4] using h
  · cases hit : season_item s item with
    | none => simp [menu_cb, h4, hit] at h
    | some it =>
      by_cases hchk : XPLMCheckMenuItemState s it = 0
      · apply hfin _ (hitems { s with auto_season := 1 } host_day rfl)
        simpa [menu_cb, h4, hit, hchk] using h
      · apply hfin { s with auto_season := 0, season := item } rfl
        simpa [menu_cb, h4, hit, hchk] using h

/-- C12. Menu mutual exclusivity: for a state with the season in 0..3 and five
distinct item ids, `set_menu` returns a state in which exactly one of the five
items is checked, the Automatic item alone in automatic mode and the item of the
current season alone otherwise; the same holds in every state `menu_cb`
returns, and in the state `XPluginStart` returns when the host hands out
distinct item ids. -/
theorem menu_exactly_one_checked (s : State) (hd : (menu_items s).Nodup)
    (hr : 0 ≤ s.season ∧ s.season ≤ 3) :
    (∃ s1, set_menu s = some s1 ∧ exactly_one_checked s1 ∧
      s1.auto_season = s.auto_season ∧ s1.season = s.season) ∧
    (∀ (item host_day : Int) (fopen_ok : Bool) (s2 : State),
      menu_cb s item host_day fopen_ok = some s2 → exactly_one_checked s2) ∧
    (∀ (file : Option (List Char)) (s2 : State),
      XPluginStart file s.auto_item s.season_item0 s.season_item1 s.season_item2
        s.season_item3 = some s2 → exactly_one_checked s2) := by
  refine ⟨?_, ?_, ?_⟩
  · obtain ⟨s1, hs1, _, hv, _⟩ := set_menu_result s (Or.inr hr)
    exact ⟨s1, hs1, set_menu_exactly_one s s1 hd hs1, hv.1, hv.2.2.2.2.2.1⟩
  · intro item host_day fopen_ok s2 hm
    obtain ⟨c, s1, hc, hs1, hs2⟩ := menu_cb_some s s2 item host_day fopen_ok hm
    rw [hs2]
    exact save_pref_exactly_one s1 fopen_ok
      (set_menu_exactly_one c s1 (by rw [hc]; exact hd) hs1)
  · intro file s2 hstart
    unfold XPluginStart at hstart
    refine set_menu_exactly_one _ s2 ?_ hstart
    rw [load_pref_items]
    exact hd

/-- C12, at a manual state with Spring pinned: after `set_menu` the Spring item
(id 3) is the only checked one; after selecting Automatic the Automatic item
(id 0) is. -/
theorem menu_exactly_one_checked_witness :
    ((menu_items south_manual).Nodup ∧ 0 ≤ south_manual.season ∧ south_manual.season ≤ 3) ∧
    (∃ s1, set_menu south_manual = some s1 ∧ exactly_one_checked s1 ∧
      s1.auto_season = south_manual.auto_season ∧ s1.season = south_manual.season) ∧
    checked_items south_manual_started = [3] ∧
    (menu_cb south_manual 4 10 true).map checked_items = some [0] :=
  have hd : (menu_items south_manual).Nodup := by decide
  ⟨⟨hd, by decide, by decide⟩,
    (menu_exactly_one_checked south_manual hd ⟨by decide, by decide⟩).1,
    by decide, by decide⟩

end SamSe
